import Mathlib

/-!
Shallow embedding of the text-overlay timeline editor of
src/components/VideoEditor.tsx (repository clipper-ai-fe), together with the
TextOverlay data model of src/lib/storage.ts.  JavaScript numbers are modelled
as rationals; JS null for the nullable time fields is modelled with Option.
All definitions are transcribed from the source file; line numbers in the
doc comments refer to src/components/VideoEditor.tsx.
-/

namespace Clipper

/-- TextOverlay record, from src/lib/storage.ts.  The x and y coordinates are
normalized to the 0-1 range; startSec and endSec are seconds relative to the
clip start, with none standing for the JS null that means "visible for the
entire clip". -/
structure TextOverlay where
  id : String
  text : String
  x : ℚ
  y : ℚ
  fontSize : ℕ
  color : String
  startSec : Option ℚ
  endSec : Option ℚ
  bold : Bool
  deriving DecidableEq

/-- A TS Partial<TextOverlay> patch as passed to updateOverlay: every field is
either absent (none) or present with a new value.  For the nullable fields
startSec and endSec a present entry carries the new nullable value. -/
structure OverlayPatch where
  text : Option String := none
  x : Option ℚ := none
  y : Option ℚ := none
  fontSize : Option ℕ := none
  color : Option String := none
  startSec : Option (Option ℚ) := none
  endSec : Option (Option ℚ) := none
  bold : Option Bool := none
  deriving DecidableEq

/-- The object spread { ...t, ...changes } used by updateOverlay
(VideoEditor.tsx lines 122-126): every field present in the patch replaces the
corresponding field of the overlay. -/
def applyPatch (t : TextOverlay) (p : OverlayPatch) : TextOverlay :=
  { id := t.id
    text := p.text.getD t.text
    x := p.x.getD t.x
    y := p.y.getD t.y
    fontSize := p.fontSize.getD t.fontSize
    color := p.color.getD t.color
    startSec := p.startSec.getD t.startSec
    endSec := p.endSec.getD t.endSec
    bold := p.bold.getD t.bold }

/-- updateOverlay (VideoEditor.tsx lines 122-126): map over the overlay list,
replacing the overlay whose id matches by its patched version. -/
def updateOverlay (overlays : List TextOverlay) (id : String)
    (changes : OverlayPatch) : List TextOverlay :=
  overlays.map fun t => if t.id == id then applyPatch t changes else t

/-- Model of the JS String.prototype.trim builtin used by addTextOverlay:
strip leading and trailing whitespace.  Defined structurally on the character
list so that concrete instances compute in the kernel. -/
def jsTrim (s : String) : String :=
  String.mk
    (((s.data.dropWhile Char.isWhitespace).reverse.dropWhile
        Char.isWhitespace).reverse)

/-- addTextOverlay (VideoEditor.tsx lines 102-120).  The freshly generated id
is passed as a parameter (generateId lives in storage.ts).  relCurrentTime is
currentTime - clipStart.  Returns the new overlay list; if the trimmed text is
empty the function returns early and the list is unchanged. -/
def addTextOverlay (newText : String) (relCurrentTime clipDuration : ℚ)
    (overlays : List TextOverlay) (newId : String) : List TextOverlay :=
  if jsTrim newText == "" then overlays
  else
    overlays ++
      [{ id := newId
         text := jsTrim newText
         x := 1/2
         y := 17/20
         fontSize := 36
         color := "#FFFFFF"
         startSec := some (max 0 relCurrentTime)
         endSec := some (min clipDuration (relCurrentTime + 3))
         bold := true }]

/-- Snap threshold for center alignment, normalized 0-1
(VideoEditor.tsx line 37). -/
def SNAP_THRESHOLD : ℚ := 3/100

/-- Which edge of a timeline bar a drag grabbed
(the "left" | "right" | "move" union in VideoEditor.tsx line 188). -/
inductive TimelineEdge
  | left
  | right
  | move
  deriving DecidableEq

/-- Contents of timelineDragRef (VideoEditor.tsx line 61). -/
structure TimelineDragState where
  startX : ℚ
  origStart : ℚ
  origEnd : ℚ
  deriving DecidableEq

/-- Contents of dragStartRef for a position drag (VideoEditor.tsx line 56). -/
structure PosDrag where
  mouseX : ℚ
  mouseY : ℚ
  textX : ℚ
  textY : ℚ
  deriving DecidableEq

/-- Component state relevant to the overlay editor: the hook state of
VideoEditor.tsx lines 49-61 (overlay list, selection, expansion, the two drag
sessions and the snap-guide flags). -/
structure EditorState where
  textOverlays : List TextOverlay
  selectedOverlayId : Option String := none
  expandedId : Option String := none
  draggingTextId : Option String := none
  snapGuides : Bool × Bool := (false, false)
  draggingTimelineId : Option String := none
  draggingTimelineEdge : Option TimelineEdge := none
  dragStartRef : Option PosDrag := none
  timelineDragRef : Option TimelineDragState := none
  deriving DecidableEq

/-- removeOverlay (VideoEditor.tsx lines 128-132): filter the overlay out of
the list and clear selection / expansion if they pointed at it. -/
def removeOverlay (st : EditorState) (id : String) : EditorState :=
  { st with
    textOverlays := st.textOverlays.filter fun t => t.id != id
    selectedOverlayId :=
      if st.selectedOverlayId = some id then none else st.selectedOverlayId
    expandedId :=
      if st.expandedId = some id then none else st.expandedId }

/-- The per-move computation of the position-drag handler
(VideoEditor.tsx lines 153-168): normalize the pixel delta by the preview
rectangle, clamp the candidate to the 0-1 square, then snap each axis to 1/2
when the value lies within SNAP_THRESHOLD of it.  Returns the stored (x, y)
pair and the (snapX, snapY) guide flags. -/
def posDragMove (d : PosDrag) (rectW rectH clientX clientY : ℚ) :
    (ℚ × ℚ) × (Bool × Bool) :=
  let dx := (clientX - d.mouseX) / rectW
  let dy := (clientY - d.mouseY) / rectH
  let newX := min 1 (max 0 (d.textX + dx))
  let newY := min 1 (max 0 (d.textY + dy))
  let snapX := decide (|newX - 1/2| < SNAP_THRESHOLD)
  let snapY := decide (|newY - 1/2| < SNAP_THRESHOLD)
  ((if snapX then 1/2 else newX, if snapY then 1/2 else newY),
   (snapX, snapY))

/-- handleTextMouseDown (VideoEditor.tsx lines 135-148): start a position
drag.  The dragging id and the selection are set before the overlay lookup;
when the id is absent the drag anchor ref stays empty. -/
def handleTextMouseDown (st : EditorState) (clientX clientY : ℚ)
    (id : String) : EditorState :=
  let st1 := { st with draggingTextId := some id, selectedOverlayId := some id }
  match st.textOverlays.find? (fun t => t.id == id) with
  | none => st1
  | some overlay =>
      { st1 with
        dragStartRef := some
          { mouseX := clientX, mouseY := clientY
            textX := overlay.x, textY := overlay.y } }

/-- The onMouseMove handler of the position-drag effect
(VideoEditor.tsx lines 153-168) lifted to the component state: when a
position drag is active, store the moved coordinates through updateOverlay
and publish the snap-guide flags. -/
def posDragOnMouseMove (st : EditorState) (rectW rectH clientX clientY : ℚ) :
    EditorState :=
  match st.draggingTextId, st.dragStartRef with
  | some id, some d =>
      let r := posDragMove d rectW rectH clientX clientY
      { st with
        snapGuides := r.2
        textOverlays :=
          updateOverlay st.textOverlays id { x := some r.1.1, y := some r.1.2 } }
  | _, _ => st

/-- The onMouseUp handler of the position-drag effect
(VideoEditor.tsx lines 170-174): end the drag and clear both guide flags. -/
def posDragOnMouseUp (st : EditorState) : EditorState :=
  { st with
    draggingTextId := none
    snapGuides := (false, false)
    dragStartRef := none }

/-- handleTimelineMouseDown (VideoEditor.tsx lines 185-202): start a timeline
drag.  A missing overlay id aborts before any state is touched; JS null
startSec and endSec default to 0 and clipDuration when recorded in the drag
anchor. -/
def handleTimelineMouseDown (st : EditorState) (clientX : ℚ) (id : String)
    (edge : TimelineEdge) (clipDuration : ℚ) : EditorState :=
  match st.textOverlays.find? (fun t => t.id == id) with
  | none => st
  | some overlay =>
      { st with
        draggingTimelineId := some id
        draggingTimelineEdge := some edge
        selectedOverlayId := some id
        timelineDragRef := some
          { startX := clientX
            origStart := overlay.startSec.getD 0
            origEnd := overlay.endSec.getD clipDuration } }

/-- The per-move interval computation of the timeline drag handler
(VideoEditor.tsx lines 207-228): pxPerSec = rect.width / clipDuration,
dSec = (clientX - startX) / pxPerSec, then the left / right / move cases
exactly as written in the source. -/
def timelineMove (edge : TimelineEdge) (drag : TimelineDragState)
    (clipDuration rectWidth clientX : ℚ) : ℚ × ℚ :=
  let pxPerSec := rectWidth / clipDuration
  let dSec := (clientX - drag.startX) / pxPerSec
  match edge with
  | TimelineEdge.left =>
      (min (max 0 (drag.origStart + dSec)) (drag.origEnd - 1/2), drag.origEnd)
  | TimelineEdge.right =>
      (drag.origStart,
       max (min clipDuration (drag.origEnd + dSec)) (drag.origStart + 1/2))
  | TimelineEdge.move =>
      let dur := drag.origEnd - drag.origStart
      let newStart := min (max 0 (drag.origStart + dSec)) (clipDuration - dur)
      (newStart, newStart + dur)

/-- The onMouseMove handler of the timeline-drag effect (VideoEditor.tsx
lines 207-228) lifted to the component state: when a timeline drag is active,
write both computed endpoints as concrete (non-null) values through
updateOverlay. -/
def timelineOnMouseMove (st : EditorState) (clipDuration rectWidth clientX : ℚ) :
    EditorState :=
  match st.draggingTimelineId, st.draggingTimelineEdge, st.timelineDragRef with
  | some id, some edge, some drag =>
      let r := timelineMove edge drag clipDuration rectWidth clientX
      { st with
        textOverlays :=
          updateOverlay st.textOverlays id
            { startSec := some (some r.1), endSec := some (some r.2) } }
  | _, _, _ => st

/-- The onMouseUp handler of the timeline-drag effect
(VideoEditor.tsx lines 230-233). -/
def timelineOnMouseUp (st : EditorState) : EditorState :=
  { st with
    draggingTimelineId := none
    draggingTimelineEdge := none }

/-- The visibility predicate of visibleOverlayIds (VideoEditor.tsx lines
259-267): an overlay is visible at relTime when
(startSec default 0) <= relTime <= (endSec default clipDuration). -/
def overlayVisible (t : TextOverlay) (relTime clipDuration : ℚ) : Bool :=
  let s := t.startSec.getD 0
  let e := t.endSec.getD clipDuration
  decide (s ≤ relTime) && decide (relTime ≤ e)

/-- visibleOverlayIds (VideoEditor.tsx lines 259-267) as the list of ids of
the overlays passing the visibility filter. -/
def visibleOverlayIds (overlays : List TextOverlay) (relTime clipDuration : ℚ) :
    List String :=
  (overlays.filter fun t => overlayVisible t relTime clipDuration).map
    fun t => t.id

/-- Clamp as used by the specification: clamp v lo hi pins v into the
interval from lo to hi (meaningful when lo <= hi). -/
def clamp (v lo hi : ℚ) : ℚ := min (max v lo) hi

/-- Decidable form of the spec data-model invariant on a concrete time
interval: 0 <= s, s < e and e <= clipDuration. -/
def intervalOK (clipDuration s e : ℚ) : Bool :=
  decide (0 ≤ s) && decide (s < e) && decide (e ≤ clipDuration)

/-- The spec data-model invariant of an overlay: when both startSec and
endSec are set, the interval they bound is well formed inside the clip. -/
def overlayInvariant (clipDuration : ℚ) (t : TextOverlay) : Bool :=
  match t.startSec, t.endSec with
  | some s, some e => intervalOK clipDuration s e
  | _, _ => true

/-! Helper lemmas shared by the claim theorems. -/

/-- Writing the clamp of the specification with its arguments in the order the
source uses for the resize-right case: when the lower bound is below the upper
bound, max (min hi v) lo agrees with clamp v lo hi. -/
theorem max_min_eq_clamp (v lo hi : ℚ) (h : lo ≤ hi) :
    max (min hi v) lo = clamp v lo hi := by
  unfold clamp
  rcases le_total v lo with h1 | h1 <;> rcases le_total v hi with h2 | h2 <;>
    simp [min_def, max_def] <;> split_ifs <;> linarith

/-- The clamp of a candidate into the 0-1 square stays within 0.03 of the
center exactly when the unclamped candidate does: the source tests the snap
threshold on the clamped value, the specification on the candidate, and the
two tests agree. -/
theorem snap_clamp_iff (c : ℚ) :
    |min 1 (max 0 c) - 1/2| < SNAP_THRESHOLD ↔ |c - 1/2| < SNAP_THRESHOLD := by
  unfold SNAP_THRESHOLD
  rcases le_total c 0 with h | h
  · rw [max_eq_left h, min_eq_right (by norm_num : (0:ℚ) ≤ 1),
      abs_sub_lt_iff, abs_sub_lt_iff]
    constructor <;> rintro ⟨h1, h2⟩ <;> constructor <;> linarith
  · rcases le_total 1 c with h2 | h2
    · rw [max_eq_right h, min_eq_left h2, abs_sub_lt_iff, abs_sub_lt_iff]
      constructor <;> rintro ⟨h1, h3⟩ <;> constructor <;> linarith
    · rw [max_eq_right h, min_eq_right h2]

/-- The no-op law of updateOverlay at an absent id: when no overlay in the
list carries the id, the map leaves the list unchanged. -/
theorem updateOverlay_absent {ov : List TextOverlay} {id : String}
    (p : OverlayPatch) (h : ∀ t ∈ ov, t.id ≠ id) : updateOverlay ov id p = ov := by
  induction ov with
  | nil => rfl
  | cons a l ih =>
      have ha : (a.id == id) = false := by
        simp only [beq_eq_false_iff_ne]
        exact h a (List.mem_cons_self a l)
      have hl := ih fun t ht => h t (List.mem_cons_of_mem a ht)
      simp only [updateOverlay, List.map_cons, ha, Bool.false_eq_true,
        if_false] at hl ⊢
      rw [hl]

/-- Counterexample to claim C1: the claimed clamp formula for resize-right is
not what the code computes on every anchor.  At anchor interval from 9.8 to
10 on a clip of duration 10 (pixels per second 1, zero pixel delta) the
source's max(min(clipDuration, anchorEnd + dSec), anchorStart + 0.5) yields
10.3 while clamp(anchorEnd + dSec, anchorStart + 0.5, clipDuration) yields
10: with the clamp bounds inverted the code lets the 0.5 second floor win
over the clip bound, and the claimed equality fails. -/
theorem resize_right_clamp_counterexample :
    (timelineMove TimelineEdge.right ⟨0, 49/5, 10⟩ 10 10 0).2 = 103/10 ∧
    clamp (10 + (0 - 0) / (10 / 10)) (49/5 + 1/2) 10 = 10 ∧
    ¬((103 : ℚ)/10 = 10) := by
  refine ⟨?_, ?_, ?_⟩ <;>
    norm_num [timelineMove, clamp, min_def, max_def]

/-- Claim C1 (amended): after a resize-left move the interval keeps its end,
its length stays at least the 0.5 second floor, and its new start is the
clamp of anchorStart + deltaSeconds into the range from 0 to anchorEnd - 0.5,
all unconditionally; after a resize-right move the interval keeps its start
and its length stays at least the floor, again unconditionally, and its new
end is the clamp of anchorEnd + deltaSeconds into the range from
anchorStart + 0.5 to clipDuration whenever anchorStart + 0.5 is at most
clipDuration, while for an anchor start within 0.5 of the clip end the code
instead returns anchorStart + 0.5, past clipDuration. -/
theorem timeline_resize_spec_amended (x0 s e D w cX : ℚ) :
    (timelineMove TimelineEdge.left ⟨x0, s, e⟩ D w cX).2 = e ∧
    1/2 ≤ (timelineMove TimelineEdge.left ⟨x0, s, e⟩ D w cX).2 -
      (timelineMove TimelineEdge.left ⟨x0, s, e⟩ D w cX).1 ∧
    (timelineMove TimelineEdge.left ⟨x0, s, e⟩ D w cX).1 =
      clamp (s + (cX - x0) / (w / D)) 0 (e - 1/2) ∧
    (timelineMove TimelineEdge.right ⟨x0, s, e⟩ D w cX).1 = s ∧
    1/2 ≤ (timelineMove TimelineEdge.right ⟨x0, s, e⟩ D w cX).2 -
      (timelineMove TimelineEdge.right ⟨x0, s, e⟩ D w cX).1 ∧
    (s + 1/2 ≤ D →
      (timelineMove TimelineEdge.right ⟨x0, s, e⟩ D w cX).2 =
        clamp (e + (cX - x0) / (w / D)) (s + 1/2) D) ∧
    (D < s + 1/2 →
      (timelineMove TimelineEdge.right ⟨x0, s, e⟩ D w cX).2 = s + 1/2) := by
  simp only [timelineMove]
  refine ⟨trivial, ?_, ?_, trivial, ?_, ?_, ?_⟩
  · have := min_le_right (max 0 (s + (cX - x0) / (w / D))) (e - 1/2)
    linarith
  · rw [max_comm]; rfl
  · have := le_max_right (min D (e + (cX - x0) / (w / D))) (s + 1/2)
    linarith
  · exact fun h => max_min_eq_clamp _ _ _ h
  · intro h
    exact max_eq_right
      (le_trans (min_le_left D (e + (cX - x0) / (w / D))) (le_of_lt h))

/-- Witness for timeline_resize_spec_amended at concrete anchors, exercising
both the ordered-bounds clamp case and the inverted-bounds floor case. -/
theorem timeline_resize_spec_amended_witness :
    (1 : ℚ) + 1/2 ≤ 10 ∧
    (timelineMove TimelineEdge.right ⟨0, 1, 2⟩ 10 10 0).2 =
      clamp (2 + (0 - 0) / (10 / 10)) (1 + 1/2) 10 ∧
    (10 : ℚ) < 49/5 + 1/2 ∧
    (timelineMove TimelineEdge.right ⟨0, 49/5, 10⟩ 10 10 0).2 = 49/5 + 1/2 :=
  ⟨by norm_num,
   (timeline_resize_spec_amended 0 1 2 10 10 0).2.2.2.2.2.1 (by norm_num),
   by norm_num,
   (timeline_resize_spec_amended 0 (49/5) 10 10 10 0).2.2.2.2.2.2
     (by norm_num)⟩

/-- Claim C2: a move gesture keeps the segment duration exactly, shifts the
pair by one clamped offset (the new start is the clamp of
anchorStart + deltaSeconds into the range from 0 to clipDuration - duration,
and the new end is the new start plus the duration, so no endpoint is clamped
on its own), and both resulting bounds lie in the clip window, given that the
drag-start interval is an interval of duration at most clipDuration. -/
theorem timeline_move_gesture_spec (x0 s e D w cX : ℚ)
    (h1 : s ≤ e) (h2 : e - s ≤ D) :
    (timelineMove TimelineEdge.move ⟨x0, s, e⟩ D w cX).2 -
      (timelineMove TimelineEdge.move ⟨x0, s, e⟩ D w cX).1 = e - s ∧
    (timelineMove TimelineEdge.move ⟨x0, s, e⟩ D w cX).1 =
      clamp (s + (cX - x0) / (w / D)) 0 (D - (e - s)) ∧
    0 ≤ (timelineMove TimelineEdge.move ⟨x0, s, e⟩ D w cX).1 ∧
    (timelineMove TimelineEdge.move ⟨x0, s, e⟩ D w cX).1 ≤ D ∧
    0 ≤ (timelineMove TimelineEdge.move ⟨x0, s, e⟩ D w cX).2 ∧
    (timelineMove TimelineEdge.move ⟨x0, s, e⟩ D w cX).2 ≤ D := by
  simp only [timelineMove]
  have hge : (0:ℚ) ≤ max 0 (s + (cX - x0) / (w / D)) := le_max_left _ _
  have hmr := min_le_right (max 0 (s + (cX - x0) / (w / D))) (D - (e - s))
  have hns : (0:ℚ) ≤ min (max 0 (s + (cX - x0) / (w / D))) (D - (e - s)) :=
    le_min hge (by linarith)
  refine ⟨by ring, ?_, hns, by linarith, by linarith, by linarith⟩
  rw [max_comm]; rfl

/-- Witness for timeline_move_gesture_spec at concrete anchors. -/
theorem timeline_move_gesture_spec_witness :
    (1 : ℚ) ≤ 2 ∧ (2 : ℚ) - 1 ≤ 10 ∧
    (timelineMove TimelineEdge.move ⟨0, 1, 2⟩ 10 10 0).2 -
      (timelineMove TimelineEdge.move ⟨0, 1, 2⟩ 10 10 0).1 = 2 - 1 :=
  ⟨by norm_num, by norm_num,
    (timeline_move_gesture_spec 0 1 2 10 10 0 (by norm_num) (by norm_num)).1⟩

/-- Claim C4: every position-drag move stores coordinates inside the unit
square: whatever the pointer coordinates and the (positive) preview surface
rectangle, the stored x and y lie in the 0-1 range, because the candidate
drag-start position plus normalized delta is clamped on each axis (and the
snap value 1/2 also lies in the range), so any sequence of moves keeps the
dragged overlay inside the square. -/
theorem position_drag_bounds (d : PosDrag) (rW rH cX cY : ℚ)
    (hW : 0 < rW) (hH : 0 < rH) :
    0 ≤ (posDragMove d rW rH cX cY).1.1 ∧
    (posDragMove d rW rH cX cY).1.1 ≤ 1 ∧
    0 ≤ (posDragMove d rW rH cX cY).1.2 ∧
    (posDragMove d rW rH cX cY).1.2 ≤ 1 := by
  simp only [posDragMove]
  refine ⟨?_, ?_, ?_, ?_⟩ <;> split_ifs <;> norm_num

/-- Witness for position_drag_bounds at a concrete move. -/
theorem position_drag_bounds_witness :
    (0 : ℚ) < 2 ∧
    0 ≤ (posDragMove ⟨0, 0, 0, 0⟩ 2 2 3 3).1.1 ∧
    (posDragMove ⟨0, 0, 0, 0⟩ 2 2 3 3).1.1 ≤ 1 ∧
    0 ≤ (posDragMove ⟨0, 0, 0, 0⟩ 2 2 3 3).1.2 ∧
    (posDragMove ⟨0, 0, 0, 0⟩ 2 2 3 3).1.2 ≤ 1 :=
  ⟨by norm_num,
    position_drag_bounds ⟨0, 0, 0, 0⟩ 2 2 3 3 (by norm_num) (by norm_num)⟩

/-- Claim C5: a position-drag move snaps each axis independently: the stored
x is exactly 1/2 with the vertical guide flag raised precisely when the
candidate x lies within 0.03 of 1/2, and otherwise the stored x is the
clamped candidate with the flag lowered; the same holds for y against 1/2 on
its own; and pointer-up clears both guide flags. -/
theorem position_drag_snap_spec (d : PosDrag) (rW rH cX cY : ℚ)
    (st : EditorState) :
    ((posDragMove d rW rH cX cY).1.1 =
      if |d.textX + (cX - d.mouseX) / rW - 1/2| < SNAP_THRESHOLD then 1/2
      else min 1 (max 0 (d.textX + (cX - d.mouseX) / rW))) ∧
    ((posDragMove d rW rH cX cY).2.1 =
      decide (|d.textX + (cX - d.mouseX) / rW - 1/2| < SNAP_THRESHOLD)) ∧
    ((posDragMove d rW rH cX cY).1.2 =
      if |d.textY + (cY - d.mouseY) / rH - 1/2| < SNAP_THRESHOLD then 1/2
      else min 1 (max 0 (d.textY + (cY - d.mouseY) / rH))) ∧
    ((posDragMove d rW rH cX cY).2.2 =
      decide (|d.textY + (cY - d.mouseY) / rH - 1/2| < SNAP_THRESHOLD)) ∧
    (posDragOnMouseUp st).snapGuides = (false, false) := by
  have hx : ((decide
      (|min 1 (max 0 (d.textX + (cX - d.mouseX) / rW)) - 1/2| <
        SNAP_THRESHOLD)) = true) ↔
      |d.textX + (cX - d.mouseX) / rW - 1/2| < SNAP_THRESHOLD := by
    rw [decide_eq_true_eq]; exact snap_clamp_iff _
  have hy : ((decide
      (|min 1 (max 0 (d.textY + (cY - d.mouseY) / rH)) - 1/2| <
        SNAP_THRESHOLD)) = true) ↔
      |d.textY + (cY - d.mouseY) / rH - 1/2| < SNAP_THRESHOLD := by
    rw [decide_eq_true_eq]; exact snap_clamp_iff _
  simp only [posDragMove]
  exact ⟨if_congr hx rfl rfl, decide_eq_decide.mpr (snap_clamp_iff _),
    if_congr hy rfl rfl, decide_eq_decide.mpr (snap_clamp_iff _), rfl⟩

/-- Claim C6: an overlay is visible exactly when the playhead time relative
to the clip lies between its resolved bounds, a null start resolving to 0 and
a null end to clipDuration, both bounds inclusive; at clipDuration 60 an
overlay spanning 10 to 20 is visible at 10 and at 20 and not visible at 9.999
nor at 20.001. -/
theorem overlay_visibility_spec :
    (∀ (t : TextOverlay) (relTime D : ℚ),
      overlayVisible t relTime D = true ↔
        t.startSec.getD 0 ≤ relTime ∧ relTime ≤ t.endSec.getD D) ∧
    (∀ (relTime : ℚ),
      overlayVisible
        ⟨"c6", "demo", 1/2, 17/20, 36, "#FFFFFF", some 10, some 20, true⟩
        relTime 60 =
      (decide ((10:ℚ) ≤ relTime) && decide (relTime ≤ (20:ℚ)))) ∧
    overlayVisible
      ⟨"c6", "demo", 1/2, 17/20, 36, "#FFFFFF", some 10, some 20, true⟩
      10 60 = true ∧
    overlayVisible
      ⟨"c6", "demo", 1/2, 17/20, 36, "#FFFFFF", some 10, some 20, true⟩
      20 60 = true ∧
    overlayVisible
      ⟨"c6", "demo", 1/2, 17/20, 36, "#FFFFFF", some 10, some 20, true⟩
      (9999/1000) 60 = false ∧
    overlayVisible
      ⟨"c6", "demo", 1/2, 17/20, 36, "#FFFFFF", some 10, some 20, true⟩
      (20001/1000) 60 = false := by
  refine ⟨?_, ?_, ?_, ?_, ?_, ?_⟩
  · intro t relTime D
    simp [overlayVisible, Bool.and_eq_true, decide_eq_true_eq]
  · intro relTime
    simp [overlayVisible]
  · simp [overlayVisible]; norm_num
  · simp [overlayVisible]; norm_num
  · simp [overlayVisible]; norm_num
  · simp [overlayVisible]; norm_num

/-- Claim C7: null materialization end to end: on a clip of duration 30, an
overlay with null startSec and endSec grabbed at its left resize handle and
dragged by 50 pixels on a 300 pixel track (5 seconds at 10 pixels per second)
ends with the concrete values startSec 5 and endSec 30: the drag anchor
defaults the nulls to 0 and clipDuration, and the move writes both endpoints
as concrete numbers. -/
theorem null_materialization_scenario :
    (timelineOnMouseMove
      (handleTimelineMouseDown
        { textOverlays :=
            [⟨"ov1", "hello", 1/2, 17/20, 36, "#FFFFFF", none, none, true⟩] }
        100 "ov1" TimelineEdge.left 30)
      30 300 150).textOverlays =
      [⟨"ov1", "hello", 1/2, 17/20, 36, "#FFFFFF", some 5, some 30, true⟩] := by
  norm_num [handleTimelineMouseDown, timelineOnMouseMove, timelineMove,
    updateOverlay, applyPatch, List.find?, min_def, max_def]

/-- Claim C8: removing the selected overlay clears the selection; removing an
id absent from the overlay list leaves the list unchanged (and the operation
is a total function, so nothing is thrown); updating an absent id leaves
every overlay unchanged. -/
theorem remove_update_absent_spec (st : EditorState) (id : String)
    (ov : List TextOverlay) (p : OverlayPatch) :
    (st.selectedOverlayId = some id →
      (removeOverlay st id).selectedOverlayId = none) ∧
    ((∀ t ∈ st.textOverlays, t.id ≠ id) →
      (removeOverlay st id).textOverlays = st.textOverlays) ∧
    ((∀ t ∈ ov, t.id ≠ id) → updateOverlay ov id p = ov) := by
  refine ⟨?_, ?_, fun h => updateOverlay_absent p h⟩
  · intro h
    simp [removeOverlay, h]
  · intro h
    simp only [removeOverlay]
    exact List.filter_eq_self.mpr fun t ht => bne_iff_ne.mpr (h t ht)

/-- Witness for remove_update_absent_spec at a concrete state. -/
theorem remove_update_absent_spec_witness :
    ((removeOverlay
        { textOverlays :=
            [⟨"a", "t", 1/2, 1/2, 36, "#FFFFFF", some 1, some 2, true⟩]
          selectedOverlayId := some "b" }
        "b").selectedOverlayId = none) ∧
    ((removeOverlay
        { textOverlays :=
            [⟨"a", "t", 1/2, 1/2, 36, "#FFFFFF", some 1, some 2, true⟩]
          selectedOverlayId := some "b" }
        "b").textOverlays =
      [⟨"a", "t", 1/2, 1/2, 36, "#FFFFFF", some 1, some 2, true⟩]) ∧
    updateOverlay
      [⟨"a", "t", 1/2, 1/2, 36, "#FFFFFF", some 1, some 2, true⟩] "b"
      { text := some "changed" } =
      [⟨"a", "t", 1/2, 1/2, 36, "#FFFFFF", some 1, some 2, true⟩] :=
  ⟨(remove_update_absent_spec
      { textOverlays :=
          [⟨"a", "t", 1/2, 1/2, 36, "#FFFFFF", some 1, some 2, true⟩]
        selectedOverlayId := some "b" }
      "b" [] {}).1 rfl,
   (remove_update_absent_spec
      { textOverlays :=
          [⟨"a", "t", 1/2, 1/2, 36, "#FFFFFF", some 1, some 2, true⟩]
        selectedOverlayId := some "b" }
      "b" [] {}).2.1 (by decide),
   (remove_update_absent_spec
      { textOverlays := [] }
      "b" [⟨"a", "t", 1/2, 1/2, 36, "#FFFFFF", some 1, some 2, true⟩]
      { text := some "changed" }).2.2 (by decide)⟩

/-- Claim C9: updateOverlay with the empty patch is the identity on the
overlay list, for any id: every field of every overlay, and the length and
the order of the list, stay exactly as they were. -/
theorem update_empty_patch_identity (ov : List TextOverlay) (id : String) :
    updateOverlay ov id {} = ov := by
  have h : (fun t : TextOverlay => if t.id == id then applyPatch t {} else t) =
      fun t => t :=
    funext fun t => by split <;> rfl
  simp only [updateOverlay, h]
  exact List.map_id ov

/-- Claim C10: addTextOverlay never creates a null interval: when the trimmed
text is nonempty the new list is the old one with exactly one overlay
appended, carrying concrete times startSec = max 0 relTime and
endSec = min clipDuration (relTime + 3), the default placement x = 1/2 and
y = 17/20, font size 36, white color and bold; and when the text trims to the
empty string (empty or whitespace-only) the overlay list is unchanged. -/
theorem add_text_overlay_spec (txt : String) (rel D : ℚ)
    (ov : List TextOverlay) (nid : String) :
    (jsTrim txt = "" → addTextOverlay txt rel D ov nid = ov) ∧
    (jsTrim txt ≠ "" →
      addTextOverlay txt rel D ov nid =
        ov ++ [⟨nid, jsTrim txt, 1/2, 17/20, 36, "#FFFFFF",
                some (max 0 rel), some (min D (rel + 3)), true⟩]) := by
  constructor <;> intro h <;>
    simp [addTextOverlay, beq_iff_eq, h]

/-- Witness for add_text_overlay_spec at concrete texts. -/
theorem add_text_overlay_spec_witness :
    addTextOverlay " " 1 30 [] "n1" = [] ∧
    addTextOverlay "hi" 1 30 [] "n1" =
      [] ++ [⟨"n1", jsTrim "hi", 1/2, 17/20, 36, "#FFFFFF",
              some (max 0 1), some (min 30 (1 + 3)), true⟩] :=
  ⟨(add_text_overlay_spec " " 1 30 [] "n1").1 (by decide),
   (add_text_overlay_spec "hi" 1 30 [] "n1").2 (by decide)⟩

/-- Propositional reading of the decidable interval invariant. -/
theorem intervalOK_iff {D s e : ℚ} :
    intervalOK D s e = true ↔ 0 ≤ s ∧ s < e ∧ e ≤ D := by
  simp [intervalOK, and_assoc]

/-- Counterexample to claim C3: the data-model invariant is not preserved by
every operation.  An updateOverlay patch may set startSec above endSec (here
5 above 2 on a clip of duration 10); moreover a resize-right move started
from an invariant-satisfying interval whose start is closer than 0.5 to the
clip end pushes endSec beyond clipDuration (9.8 to 10 becomes 9.8 to 10.3),
and a resize-left move started from an interval ending before 0.5 pushes
startSec below 0 (0 to 0.3 becomes -0.2 to 0.3). -/
theorem invariant_not_preserved_counterexample :
    overlayInvariant 10
      ⟨"a", "t", 1/2, 1/2, 36, "#FFFFFF", some 1, some 2, true⟩ = true ∧
    updateOverlay
      [⟨"a", "t", 1/2, 1/2, 36, "#FFFFFF", some 1, some 2, true⟩] "a"
      { startSec := some (some 5) } =
      [⟨"a", "t", 1/2, 1/2, 36, "#FFFFFF", some 5, some 2, true⟩] ∧
    overlayInvariant 10
      ⟨"a", "t", 1/2, 1/2, 36, "#FFFFFF", some 5, some 2, true⟩ = false ∧
    intervalOK 10 (49/5) 10 = true ∧
    (timelineMove TimelineEdge.right ⟨0, 49/5, 10⟩ 10 10 0).2 = 103/10 ∧
    ¬((103 : ℚ)/10 ≤ 10) ∧
    intervalOK 10 0 (3/10) = true ∧
    (timelineMove TimelineEdge.left ⟨0, 0, 3/10⟩ 10 10 0).1 = -(1/5) ∧
    ¬((0 : ℚ) ≤ -(1/5)) := by
  refine ⟨?_, ?_, ?_, ?_, ?_, ?_, ?_, ?_, ?_⟩ <;>
    norm_num [overlayInvariant, intervalOK, updateOverlay, applyPatch,
      timelineMove, min_def, max_def]

/-- Claim C3 (amended): the operations preserve the interval invariant with
the provisos the code forces: an overlay freshly added at a playhead strictly
inside the clip satisfies it; a timeline move gesture preserves it; a
resize-left preserves it when the anchor end leaves room for the 0.5 floor
above 0, and a resize-right when the anchor start leaves room for the floor
below clipDuration; and an updateOverlay patch that does not touch startSec
or endSec (position drags in particular) preserves it.  Arbitrary
startSec/endSec patches need not preserve it. -/
theorem editor_ops_preserve_interval_invariant
    (D w x0 cX rel s e : ℚ) (p : OverlayPatch) (t : TextOverlay)
    (txt nid : String) (ov : List TextOverlay) :
    (0 ≤ rel → rel < D →
      ∀ u ∈ addTextOverlay txt rel D ov nid,
        u ∈ ov ∨ overlayInvariant D u = true) ∧
    (intervalOK D s e = true →
      intervalOK D (timelineMove TimelineEdge.move ⟨x0, s, e⟩ D w cX).1
        (timelineMove TimelineEdge.move ⟨x0, s, e⟩ D w cX).2 = true) ∧
    (intervalOK D s e = true → 1/2 ≤ e →
      intervalOK D (timelineMove TimelineEdge.left ⟨x0, s, e⟩ D w cX).1
        (timelineMove TimelineEdge.left ⟨x0, s, e⟩ D w cX).2 = true) ∧
    (intervalOK D s e = true → s + 1/2 ≤ D →
      intervalOK D (timelineMove TimelineEdge.right ⟨x0, s, e⟩ D w cX).1
        (timelineMove TimelineEdge.right ⟨x0, s, e⟩ D w cX).2 = true) ∧
    (p.startSec = none → p.endSec = none → overlayInvariant D t = true →
      overlayInvariant D (applyPatch t p) = true) := by
  refine ⟨?_, ?_, ?_, ?_, ?_⟩
  · intro h0 hD u hu
    rw [addTextOverlay] at hu
    split at hu
    · exact Or.inl hu
    · rcases List.mem_append.mp hu with h | h
      · exact Or.inl h
      · refine Or.inr ?_
        rw [List.mem_singleton.mp h]
        show intervalOK D (max 0 rel) (min D (rel + 3)) = true
        rw [intervalOK_iff]
        refine ⟨le_max_left 0 rel, ?_, min_le_left D (rel + 3)⟩
        rw [max_eq_right h0]
        exact lt_min hD (by linarith)
  · intro h
    rw [intervalOK_iff] at h
    obtain ⟨hs, hse, heD⟩ := h
    simp only [timelineMove]
    rw [intervalOK_iff]
    have hge : (0:ℚ) ≤ max 0 (s + (cX - x0) / (w / D)) := le_max_left _ _
    have hmr := min_le_right (max 0 (s + (cX - x0) / (w / D))) (D - (e - s))
    have hns : (0:ℚ) ≤ min (max 0 (s + (cX - x0) / (w / D))) (D - (e - s)) :=
      le_min hge (by linarith)
    exact ⟨hns, by linarith, by linarith⟩
  · intro h hhalf
    rw [intervalOK_iff] at h
    obtain ⟨hs, hse, heD⟩ := h
    simp only [timelineMove]
    rw [intervalOK_iff]
    have hmr := min_le_right (max 0 (s + (cX - x0) / (w / D))) (e - 1/2)
    refine ⟨le_min (le_max_left _ _) (by linarith), by linarith, heD⟩
  · intro h hsd
    rw [intervalOK_iff] at h
    obtain ⟨hs, hse, heD⟩ := h
    simp only [timelineMove]
    rw [intervalOK_iff]
    have hlr := le_max_right (min D (e + (cX - x0) / (w / D))) (s + 1/2)
    exact ⟨hs, by linarith, max_le (min_le_left _ _) hsd⟩
  · intro hps hpe ht
    rcases hsv : t.startSec with _ | s0 <;> rcases hev : t.endSec with _ | e0 <;>
      simp only [overlayInvariant, applyPatch, hps, hpe, hsv, hev,
        Option.getD_none] at ht ⊢ <;> exact ht

/-- Witness for editor_ops_preserve_interval_invariant at concrete inputs. -/
theorem editor_ops_preserve_interval_invariant_witness :
    (∀ u ∈ addTextOverlay "hey" 1 10 ([] : List TextOverlay) "nid",
      u ∈ ([] : List TextOverlay) ∨ overlayInvariant 10 u = true) ∧
    intervalOK 10 (timelineMove TimelineEdge.move ⟨0, 1, 2⟩ 10 10 0).1
      (timelineMove TimelineEdge.move ⟨0, 1, 2⟩ 10 10 0).2 = true ∧
    intervalOK 10 (timelineMove TimelineEdge.left ⟨0, 1, 2⟩ 10 10 0).1
      (timelineMove TimelineEdge.left ⟨0, 1, 2⟩ 10 10 0).2 = true ∧
    intervalOK 10 (timelineMove TimelineEdge.right ⟨0, 1, 2⟩ 10 10 0).1
      (timelineMove TimelineEdge.right ⟨0, 1, 2⟩ 10 10 0).2 = true ∧
    overlayInvariant 10
      (applyPatch ⟨"a", "t", 1/2, 1/2, 36, "#FFFFFF", some 1, some 2, true⟩ {})
      = true :=
  ⟨(editor_ops_preserve_interval_invariant 10 10 0 0 1 1 2 {}
      ⟨"a", "t", 1/2, 1/2, 36, "#FFFFFF", some 1, some 2, true⟩
      "hey" "nid" []).1 (by norm_num) (by norm_num),
   (editor_ops_preserve_interval_invariant 10 10 0 0 1 1 2 {}
      ⟨"a", "t", 1/2, 1/2, 36, "#FFFFFF", some 1, some 2, true⟩
      "hey" "nid" []).2.1 (by decide),
   (editor_ops_preserve_interval_invariant 10 10 0 0 1 1 2 {}
      ⟨"a", "t", 1/2, 1/2, 36, "#FFFFFF", some 1, some 2, true⟩
      "hey" "nid" []).2.2.1 (by decide) (by norm_num),
   (editor_ops_preserve_interval_invariant 10 10 0 0 1 1 2 {}
      ⟨"a", "t", 1/2, 1/2, 36, "#FFFFFF", some 1, some 2, true⟩
      "hey" "nid" []).2.2.2.1 (by decide) (by norm_num),
   (editor_ops_preserve_interval_invariant 10 10 0 0 1 1 2 {}
      ⟨"a", "t", 1/2, 1/2, 36, "#FFFFFF", some 1, some 2, true⟩
      "hey" "nid" []).2.2.2.2 rfl rfl (by decide)⟩

end Clipper
